import Mathlib

/-!
Verification of the case-number allocation and medicine-dosage-protocol
engine of the ABC Program Management System.

The dosage engine is embedded from src/backend/server.py
(MEDICINE_PROTOCOL, calculate_medicine_dosage); the case-number
allocator and formatter are embedded from src/backend/utils.py
(generate_case_number, get_next_case_number).  Python floats are
modelled as rationals, Python strings as Lean Strings (for drug names,
which are only ever compared for equality) and as List Char (for case
numbers, which are scanned character by character).
-/

/-! ## Dosage protocol table and calculator (src/backend/server.py) -/

/-- Embedding of Python's built-in round: round-half-to-even on the
exact rational value. -/
def pyRound (q : ℚ) : ℤ :=
  if q - (Int.floor q : ℚ) < 1/2 then Int.floor q
  else if q - (Int.floor q : ℚ) > 1/2 then Int.floor q + 1
  else if Int.floor q % 2 = 0 then Int.floor q else Int.floor q + 1

/-- One entry of MEDICINE_PROTOCOL.  A key absent from the Python dict
is a field at its default value (False / None). -/
structure ProtocolRule where
  base_dose : ℚ
  unit : String
  fixed : Bool := false
  per_10kg : Bool := false
  max : Option ℚ := none
  round_half : Bool := false
  round_50 : Bool := false
  round_5 : Bool := false
  female_only : Bool := false
deriving DecidableEq

/-- MEDICINE_PROTOCOL from src/backend/server.py, lines 85-105. -/
def MEDICINE_PROTOCOL : List (String × ProtocolRule) := [
  ("Anti-Rabies Vaccine", { base_dose := 1, unit := "Ml", fixed := true }),
  ("Xylazine", { base_dose := 1, unit := "Ml", per_10kg := true }),
  ("Melonex", { base_dose := 0.8, unit := "Ml", per_10kg := true, max := some 1 }),
  ("Atropine", { base_dose := 1, unit := "Ml", per_10kg := true, round_half := true }),
  ("Diazepam", { base_dose := 0, unit := "Ml", per_10kg := true }),
  ("Prednisolone", { base_dose := 0, unit := "Ml", per_10kg := true }),
  ("Ketamine", { base_dose := 3, unit := "Ml", per_10kg := true, round_half := true }),
  ("Tribivet", { base_dose := 1, unit := "Ml", fixed := true }),
  ("Intacef Tazo", { base_dose := 400, unit := "Mg", per_10kg := true, round_50 := true }),
  ("Adrenaline", { base_dose := 0, unit := "Ml", per_10kg := true }),
  ("Alu Spray", { base_dose := 2, unit := "Ml", per_10kg := true, round_half := true }),
  ("Ethamsylate", { base_dose := 1, unit := "Ml", per_10kg := true, round_half := true }),
  ("Tincture", { base_dose := 20, unit := "Ml", per_10kg := true, round_5 := true }),
  ("Avil", { base_dose := 1, unit := "Ml", fixed := true }),
  ("Vicryl 1", { base_dose := 0.20, unit := "Pcs", fixed := true }),
  ("Catgut", { base_dose := 0.20, unit := "Pcs", fixed := true }),
  ("Vicryl 2", { base_dose := 0.20, unit := "Pcs", female_only := true }),
  ("Metronidazole", { base_dose := 50, unit := "Ml", fixed := true })]

/-- Python dict lookup `MEDICINE_PROTOCOL[medicine_name]` together with
the `medicine_name not in MEDICINE_PROTOCOL` membership test. -/
def dictLookup : List (String × ProtocolRule) → String → Option ProtocolRule
  | [], _ => none
  | (k, v) :: rest, name => if name = k then some v else dictLookup rest name

/-- The `if protocol.get("max"):` clamp of calculate_medicine_dosage.
Python truthiness: None and 0 are falsy, so a zero cap would not clamp. -/
def applyMax (protocol : ProtocolRule) (dose : ℚ) : ℚ :=
  match protocol.max with
  | some m => if m ≠ 0 then min dose m else dose
  | none => dose

/-- The rounding elif-chain of calculate_medicine_dosage. -/
def applyRounding (protocol : ProtocolRule) (dose : ℚ) : ℚ :=
  if protocol.round_half = true then (pyRound (dose * 2) : ℚ) / 2
  else if protocol.round_50 = true then (pyRound (dose / 50) : ℚ) * 50
  else if protocol.round_5 = true then (pyRound (dose / 5) : ℚ) * 5
  else dose

/-- Body of calculate_medicine_dosage after the successful protocol
lookup: female-only gate, then fixed / per-10kg / fall-through. -/
def ruleDose (protocol : ProtocolRule) (weight : ℚ) (gender : Option String) : ℚ :=
  if protocol.female_only = true ∧ gender ≠ some "Female" then 0
  else if protocol.fixed = true then protocol.base_dose
  else if protocol.per_10kg = true then
    applyRounding protocol (applyMax protocol (protocol.base_dose * weight / 10))
  else protocol.base_dose

/-- calculate_medicine_dosage from src/backend/server.py, lines 107-140. -/
def calculate_medicine_dosage (weight : ℚ) (medicine_name : String)
    (gender : Option String) : ℚ :=
  match dictLookup MEDICINE_PROTOCOL medicine_name with
  | none => 0
  | some protocol => ruleDose protocol weight gender

/-! ## Case number formatter and allocator (src/backend/utils.py) -/

/-- ASCII digit character for a digit value, as produced by Python's
decimal formatting. -/
def digitChar (d : Nat) : Char := Char.ofNat (48 + d)

/-- Decimal digits of a natural number, most significant first, with
explicit fuel so that the definition is structural (any fuel above the
argument computes the same list, see the lemmas below). -/
def natToDigitsAux : Nat → Nat → List Char
  | 0, _ => []
  | fuel + 1, n =>
    if n < 10 then [digitChar n]
    else natToDigitsAux fuel (n / 10) ++ [digitChar (n % 10)]

/-- Decimal representation of a natural number, most significant digit
first: the digit string Python's str/format produces for it. -/
def natToDigits (n : Nat) : List Char := natToDigitsAux (n + 1) n

/-- Python format specifier 04d on a nonnegative integer: left-pad the
decimal digits with zeros to a minimum width of 4, never truncating. -/
def pad4 (cs : List Char) : List Char := List.replicate (4 - cs.length) '0' ++ cs

/-- calendar.month_abbr[month].upper()[:3] for month in 0..12 (index 0
of Python's month_abbr is the empty string). -/
def month_abbr : Nat → List Char
  | 1 => "JAN".toList
  | 2 => "FEB".toList
  | 3 => "MAR".toList
  | 4 => "APR".toList
  | 5 => "MAY".toList
  | 6 => "JUN".toList
  | 7 => "JUL".toList
  | 8 => "AUG".toList
  | 9 => "SEP".toList
  | 10 => "OCT".toList
  | 11 => "NOV".toList
  | 12 => "DEC".toList
  | _ => []

/-- generate_case_number from src/backend/utils.py, lines 8-24:
the f-string org-project-monthabbr-type-paddedsequence. -/
def generate_case_number (org_shortcode project_code : List Char) (month : Nat)
    (sequence : Nat) (case_type : Char) : List Char :=
  org_shortcode ++ ('-' :: (project_code ++ ('-' :: (month_abbr month ++
    ('-' :: (case_type :: pad4 (natToDigits sequence)))))))

/-- The anchored regex prefix built by get_next_case_number:
org-project-monthabbr-type. -/
def case_pattern (org_shortcode project_code : List Char) (month : Nat)
    (case_type : Char) : List Char :=
  org_shortcode ++ ('-' :: (project_code ++ ('-' :: (month_abbr month ++
    ('-' :: [case_type])))))

/-- Anchored prefix match, the effect of the mongo $regex query with a
start-anchored pattern. -/
def startsWith : List Char → List Char → Bool
  | [], _ => true
  | _ :: _, [] => false
  | p :: ps, c :: cs => p = c && startsWith ps cs

/-- One step of scanning for the text after the last dash; folding this
over a string from the empty accumulator is Python's split on a dash
followed by taking the last piece. -/
def tokenStep (acc : List Char) (c : Char) : List Char :=
  if c = '-' then [] else acc ++ [c]

/-- Python case_number.split on a dash, last element: the text after
the final dash (the whole string when no dash occurs). -/
def lastDashToken (cs : List Char) : List Char := cs.foldl tokenStep []

/-- Value of an ASCII digit character; none for any other character. -/
def digitVal (c : Char) : Option Nat :=
  if '0' ≤ c ∧ c ≤ '9' then some (c.toNat - 48) else none

/-- Left-to-right accumulation of decimal digits; none as soon as a
non-digit character appears. -/
def parseDigitsAux : List Char → Nat → Option Nat
  | [], acc => some acc
  | c :: cs, acc =>
    match digitVal c with
    | some d => parseDigitsAux cs (acc * 10 + d)
    | none => none

/-- Python int() applied to a candidate digit string (the suffixes cut
out of case numbers are plain ASCII, so no sign or whitespace arises):
none models the ValueError on an empty or non-digit string. -/
def pyInt (cs : List Char) : Option Nat :=
  if cs = [] then none else parseDigitsAux cs 0

/-- The per-case body of the try block in get_next_case_number: strip
the leading record-type letter when present, then int().  none models
the caught IndexError (empty token) or ValueError (unparsable digits),
which make the loop skip the entry. -/
def extractSeq : List Char → Option Nat
  | [] => none
  | c :: cs => pyInt (if c.isAlpha then cs else c :: cs)

/-- The filtered query result of get_next_case_number: existing case
numbers matching the anchored pattern for the requested period. -/
def matching_cases (org_shortcode project_code : List Char) (month : Nat)
    (case_type : Char) (existing : List (List Char)) : List (List Char) :=
  existing.filter
    (fun s => startsWith (case_pattern org_shortcode project_code month case_type) s)

/-- The sequences list of get_next_case_number: parsed integer suffixes
of the matching case numbers, parse failures skipped. -/
def parsed_sequences (org_shortcode project_code : List Char) (month : Nat)
    (case_type : Char) (existing : List (List Char)) : List Nat :=
  (matching_cases org_shortcode project_code month case_type existing).filterMap
    (fun s => extractSeq (lastDashToken s))

/-- The sequence computation of get_next_case_number, lines 62-76 of
src/backend/utils.py: 1 when no case matches, otherwise max of the
parsed suffixes plus 1, or 1 again when every suffix was unparsable. -/
def next_sequence (org_shortcode project_code : List Char) (month : Nat)
    (case_type : Char) (existing : List (List Char)) : Nat :=
  if matching_cases org_shortcode project_code month case_type existing = [] then 1
  else
    match (parsed_sequences org_shortcode project_code month case_type existing).max? with
    | some m => m + 1
    | none => 1

/-- get_next_case_number from src/backend/utils.py, lines 30-78, as the
pure function of the period and the snapshot of existing numbers that
the database query returns. -/
def get_next_case_number (org_shortcode project_code : List Char) (month : Nat)
    (case_type : Char) (existing : List (List Char)) : List Char :=
  generate_case_number org_shortcode project_code month
    (next_sequence org_shortcode project_code month case_type existing) case_type

/-! ## Helper lemmas about decimal digit strings and dash tokens -/

theorem digitVal_digitChar (d : Nat) (h : d < 10) : digitVal (digitChar d) = some d := by
  interval_cases d <;> decide

theorem digitChar_ne_dash (d : Nat) (h : d < 10) : digitChar d ≠ '-' := by
  interval_cases d <;> decide

theorem parseDigitsAux_append (xs ys : List Char) (acc : Nat) :
    parseDigitsAux (xs ++ ys) acc
      = (parseDigitsAux xs acc).bind (fun a => parseDigitsAux ys a) := by
  induction xs generalizing acc with
  | nil => simp [parseDigitsAux]
  | cons c cs ih =>
    simp only [List.cons_append, parseDigitsAux]
    cases hd : digitVal c with
    | none => simp
    | some d => simp [ih]

theorem parseDigitsAux_replicate_zero (k : Nat) (acc : Nat) :
    parseDigitsAux (List.replicate k '0') acc = some (acc * 10 ^ k) := by
  induction k generalizing acc with
  | zero => simp [parseDigitsAux]
  | succ k ih =>
    have h0 : digitVal '0' = some 0 := by decide
    simp only [List.replicate_succ, parseDigitsAux, h0]
    rw [ih]
    congr 1
    ring

theorem natToDigitsAux_parse (fuel : Nat) :
    ∀ n, n < fuel → ∀ acc,
      parseDigitsAux (natToDigitsAux fuel n) acc
        = some (acc * 10 ^ (natToDigitsAux fuel n).length + n) := by
  induction fuel with
  | zero => intro n h; omega
  | succ fuel ih =>
    intro n hn acc
    by_cases h10 : n < 10
    · simp only [natToDigitsAux, if_pos h10, parseDigitsAux, digitVal_digitChar n h10,
        List.length_singleton]
      norm_num
    · have hdiv : n / 10 < fuel := by omega
      simp only [natToDigitsAux, if_neg h10]
      rw [parseDigitsAux_append, ih (n / 10) hdiv acc]
      have hd : digitVal (digitChar (n % 10)) = some (n % 10) :=
        digitVal_digitChar _ (Nat.mod_lt _ (by norm_num))
      simp only [Option.some_bind, parseDigitsAux, hd, List.length_append,
        List.length_singleton, Option.some.injEq]
      generalize (natToDigitsAux fuel (n / 10)).length = L
      rw [pow_succ]
      have e : acc * (10 ^ L * 10) = acc * 10 ^ L * 10 := by ring
      rw [e]
      generalize acc * 10 ^ L = t
      omega

theorem natToDigitsAux_ne_nil (fuel : Nat) :
    ∀ n, n < fuel → natToDigitsAux fuel n ≠ [] := by
  induction fuel with
  | zero => intro n h; omega
  | succ fuel _ =>
    intro n hn
    by_cases h10 : n < 10
    · simp [natToDigitsAux, if_pos h10]
    · simp [natToDigitsAux, if_neg h10]

theorem natToDigitsAux_ne_dash (fuel : Nat) :
    ∀ n, n < fuel → ∀ c ∈ natToDigitsAux fuel n, c ≠ '-' := by
  induction fuel with
  | zero => intro n h; omega
  | succ fuel ih =>
    intro n hn c hc
    by_cases h10 : n < 10
    · rw [natToDigitsAux, if_pos h10] at hc
      simp only [List.mem_singleton] at hc
      subst hc
      exact digitChar_ne_dash n h10
    · rw [natToDigitsAux, if_neg h10] at hc
      rcases List.mem_append.mp hc with h | h
      · exact ih (n / 10) (by omega) c h
      · simp only [List.mem_singleton] at h
        subst h
        exact digitChar_ne_dash _ (Nat.mod_lt _ (by norm_num))

theorem natToDigitsAux_lt_pow_length (fuel : Nat) :
    ∀ n, n < fuel → n < 10 ^ (natToDigitsAux fuel n).length := by
  induction fuel with
  | zero => intro n h; omega
  | succ fuel ih =>
    intro n hn
    by_cases h10 : n < 10
    · simp only [natToDigitsAux, if_pos h10, List.length_singleton]
      omega
    · have hdiv : n / 10 < fuel := by omega
      have hq := ih (n / 10) hdiv
      simp only [natToDigitsAux, if_neg h10, List.length_append, List.length_singleton]
      rw [pow_succ]
      generalize (10 : Nat) ^ (natToDigitsAux fuel (n / 10)).length = K at hq ⊢
      omega

theorem pyInt_pad4_natToDigits (n : Nat) : pyInt (pad4 (natToDigits n)) = some n := by
  have hne : natToDigits n ≠ [] := natToDigitsAux_ne_nil (n + 1) n (Nat.lt_succ_self n)
  have hpadne : pad4 (natToDigits n) ≠ [] := by
    unfold pad4
    intro h
    rcases List.append_eq_nil.mp h with ⟨_, h2⟩
    exact hne h2
  unfold pyInt pad4
  rw [if_neg (by unfold pad4 at hpadne; exact hpadne)]
  rw [parseDigitsAux_append, parseDigitsAux_replicate_zero]
  simp only [Option.some_bind, zero_mul]
  unfold natToDigits
  rw [natToDigitsAux_parse (n + 1) n (Nat.lt_succ_self n)]
  simp

theorem foldl_tokenStep_no_dash (l : List Char) :
    ∀ acc, (∀ c ∈ l, c ≠ '-') → l.foldl tokenStep acc = acc ++ l := by
  induction l with
  | nil => intro acc _; simp
  | cons c cs ih =>
    intro acc h
    have hc : c ≠ '-' := h c (List.mem_cons_self c cs)
    simp only [List.foldl_cons, tokenStep, if_neg hc]
    rw [ih (acc ++ [c]) (fun x hx => h x (List.mem_cons_of_mem c hx))]
    simp

theorem lastDashToken_append_dash (xs ys : List Char) :
    lastDashToken (xs ++ ('-' :: ys)) = lastDashToken ys := by
  unfold lastDashToken
  rw [List.foldl_append, List.foldl_cons]
  simp [tokenStep]

theorem lastDashToken_no_dash (l : List Char) (h : ∀ c ∈ l, c ≠ '-') :
    lastDashToken l = l := by
  unfold lastDashToken
  rw [foldl_tokenStep_no_dash l [] h]
  simp

theorem extractSeq_generate (org project : List Char) (month : Nat) (s : Nat) :
    extractSeq (lastDashToken (generate_case_number org project month s 'C')) = some s := by
  unfold generate_case_number
  rw [lastDashToken_append_dash, lastDashToken_append_dash, lastDashToken_append_dash]
  rw [lastDashToken_no_dash]
  · show pyInt (if 'C'.isAlpha then pad4 (natToDigits s) else 'C' :: pad4 (natToDigits s)) = some s
    rw [if_pos (by decide)]
    exact pyInt_pad4_natToDigits s
  · intro c hc
    rcases List.mem_cons.mp hc with h | h
    · subst h; decide
    · unfold pad4 at h
      rcases List.mem_append.mp h with h | h
      · have := List.eq_of_mem_replicate h
        subst this; decide
      · exact natToDigitsAux_ne_dash (s + 1) s (Nat.lt_succ_self s) c h

/-! ## Lemmas about the protocol table lookup -/

theorem dictLookup_mem :
    ∀ (l : List (String × ProtocolRule)) (name : String) (r : ProtocolRule),
      dictLookup l name = some r → (name, r) ∈ l := by
  intro l
  induction l with
  | nil => intro name r h; simp [dictLookup] at h
  | cons p rest ih =>
    intro name r h
    obtain ⟨k, v⟩ := p
    unfold dictLookup at h
    by_cases hk : name = k
    · rw [if_pos hk] at h
      injection h with h
      subst hk h
      exact List.mem_cons_self _ _
    · rw [if_neg hk] at h
      exact List.mem_cons_of_mem _ (ih name r h)

theorem lookup_xylazine :
    dictLookup MEDICINE_PROTOCOL "Xylazine"
      = some { base_dose := 1, unit := "Ml", per_10kg := true } := by
  rfl

theorem lookup_vicryl2 :
    dictLookup MEDICINE_PROTOCOL "Vicryl 2"
      = some { base_dose := 0.20, unit := "Pcs", female_only := true } := by
  rfl

theorem lookup_melonex :
    dictLookup MEDICINE_PROTOCOL "Melonex"
      = some { base_dose := 0.8, unit := "Ml", per_10kg := true, max := some 1 } := by
  rfl

/-! ## Claim theorems for the dosage engine -/

/-- C1, counterexample: the shipped protocol table does not satisfy
"every drug entry carries exactly one of the fixed and per_10kg
markers": the entry for Vicryl 2 carries neither marker. -/
theorem C1_mode_invariant_counterexample :
    (MEDICINE_PROTOCOL.all (fun p =>
        (p.2.fixed && !p.2.per_10kg) || (!p.2.fixed && p.2.per_10kg))) = false
    ∧ dictLookup MEDICINE_PROTOCOL "Vicryl 2"
        = some { base_dose := 0.20, unit := "Pcs", female_only := true }
    ∧ (ProtocolRule.fixed { base_dose := 0.20, unit := "Pcs", female_only := true } = false
        ∧ ProtocolRule.per_10kg { base_dose := 0.20, unit := "Pcs", female_only := true }
            = false) := by
  refine ⟨by decide, lookup_vicryl2, by decide⟩

/-- C1, amended: every rule of the protocol table carries at most one
of the fixed and per_10kg markers; every rule other than Vicryl 2
carries exactly one, while Vicryl 2 carries neither (female_only
combines with a marker on no entry, Vicryl 2 being the only female_only
entry). -/
theorem C1_mode_invariant_amended :
    (MEDICINE_PROTOCOL.all (fun p => !(p.2.fixed && p.2.per_10kg))) = true
    ∧ (MEDICINE_PROTOCOL.all (fun p =>
        (p.1 == "Vicryl 2") || (p.2.fixed ^^ p.2.per_10kg))) = true
    ∧ (MEDICINE_PROTOCOL.all (fun p =>
        (p.1 != "Vicryl 2") || (!p.2.fixed && !p.2.per_10kg))) = true := by
  refine ⟨by decide, by decide, by decide⟩

/-- C2: Vicryl 2 doses 0.2 for a female animal and 0 for a male one at
weight 20, and in general any female_only rule returns 0 for every
weight whenever the gender is not Female, before any mode or weight
computation applies. -/
theorem C2_female_only_gate :
    calculate_medicine_dosage 20 "Vicryl 2" (some "Female") = 0.2
    ∧ calculate_medicine_dosage 20 "Vicryl 2" (some "Male") = 0
    ∧ (∀ (medicine_name : String) (rule : ProtocolRule) (weight : ℚ)
          (gender : Option String),
        dictLookup MEDICINE_PROTOCOL medicine_name = some rule →
        rule.female_only = true →
        gender ≠ some "Female" →
        calculate_medicine_dosage weight medicine_name gender = 0) := by
  refine ⟨?_, ?_, ?_⟩
  · simp +decide [calculate_medicine_dosage, dictLookup, MEDICINE_PROTOCOL, ruleDose]
    norm_num
  · simp +decide [calculate_medicine_dosage, dictLookup, MEDICINE_PROTOCOL, ruleDose]
  · intro medicine_name rule weight gender hlook hfem hg
    unfold calculate_medicine_dosage
    rw [hlook]
    show ruleDose rule weight gender = 0
    unfold ruleDose
    rw [if_pos ⟨hfem, hg⟩]

/-- C2 witness: the gate branch of the theorem applied at weight 20,
drug Vicryl 2, gender Male. -/
theorem C2_female_only_gate_witness :
    calculate_medicine_dosage 20 "Vicryl 2" (some "Male") = 0 :=
  C2_female_only_gate.2.2 "Vicryl 2"
    { base_dose := 0.20, unit := "Pcs", female_only := true } 20 (some "Male")
    lookup_vicryl2 rfl (by decide)

/-- C7: Intacef Tazo at weight 17 doses 680 rounded to the nearest 50,
namely 700; that value is round(raw / 50) * 50 for raw = 400 * 17 / 10;
and no table entry sets more than one rounding policy. -/
theorem C7_nearest_50_rounding :
    calculate_medicine_dosage 17 "Intacef Tazo" (some "Male") = 700
    ∧ ((pyRound (((400 : ℚ) * 17 / 10) / 50) : ℚ) * 50 = 700)
    ∧ (MEDICINE_PROTOCOL.all (fun p =>
        (!(p.2.round_half && p.2.round_50)) && (!(p.2.round_half && p.2.round_5))
          && (!(p.2.round_50 && p.2.round_5)))) = true := by
  refine ⟨?_, ?_, by decide⟩
  · simp +decide [calculate_medicine_dosage, dictLookup, MEDICINE_PROTOCOL, ruleDose,
      applyMax, applyRounding]
    norm_num [pyRound]
  · norm_num [pyRound]

/-- C8: Melonex at weight 25 has raw dose 2 clamped by min to the cap
1, and for every rule of the table that is per-10kg and carries a cap
(in the shipped table exactly Melonex) the computed dose never exceeds
that cap, for any weight and gender. -/
theorem C8_max_cap_clamp :
    calculate_medicine_dosage 25 "Melonex" (some "Male") = 1
    ∧ min ((0.8 : ℚ) * 25 / 10) 1 = 1
    ∧ (∀ (medicine_name : String) (rule : ProtocolRule) (m : ℚ),
        dictLookup MEDICINE_PROTOCOL medicine_name = some rule →
        rule.per_10kg = true →
        rule.max = some m →
        ∀ (weight : ℚ) (gender : Option String),
          calculate_medicine_dosage weight medicine_name gender ≤ m) := by
  refine ⟨?_, ?_, ?_⟩
  · simp +decide [calculate_medicine_dosage, dictLookup, MEDICINE_PROTOCOL, ruleDose,
      applyMax, applyRounding]
    norm_num
  · norm_num
  · intro medicine_name rule m hlook hper hmax weight gender
    have hmem := dictLookup_mem MEDICINE_PROTOCOL medicine_name rule hlook
    unfold calculate_medicine_dosage
    rw [hlook]
    show ruleDose rule weight gender ≤ m
    fin_cases hmem <;> simp_all [ruleDose, applyMax, applyRounding]
    subst hmax
    rw [if_neg (by norm_num)]
    exact min_le_right _ _

/-- C8 witness: the cap bound applied at Melonex with cap 1, weight 25,
gender Male. -/
theorem C8_max_cap_clamp_witness :
    calculate_medicine_dosage 25 "Melonex" (some "Male") ≤ 1 :=
  C8_max_cap_clamp.2.2 "Melonex"
    { base_dose := 0.8, unit := "Ml", per_10kg := true, max := some 1 } 1
    lookup_melonex rfl rfl 25 (some "Male")

/-- C9: Xylazine is per-10kg with base 1, no cap and no rounding, so
for every weight between 10 and 30 the dose is weight / 10; at 15 it is
1.5. -/
theorem C9_xylazine_linear :
    (∀ w : ℚ, 10 ≤ w → w ≤ 30 →
      calculate_medicine_dosage w "Xylazine" (some "Male") = w / 10)
    ∧ calculate_medicine_dosage 15 "Xylazine" (some "Male") = 1.5 := by
  constructor
  · intro w h1 h2
    unfold calculate_medicine_dosage
    rw [lookup_xylazine]
    simp +decide [ruleDose, applyMax, applyRounding]
  · simp +decide [calculate_medicine_dosage, dictLookup, MEDICINE_PROTOCOL, ruleDose,
      applyMax, applyRounding]
    norm_num

/-- C9 witness: the linear-scaling branch applied at weight 15. -/
theorem C9_xylazine_linear_witness :
    calculate_medicine_dosage 15 "Xylazine" (some "Male") = 15 / 10 :=
  C9_xylazine_linear.1 15 (by norm_num) (by norm_num)

/-- C10: a protocol rule carrying neither the fixed nor the per_10kg
marker returns base_dose unchanged for every weight, whenever the
female_only gate does not already force 0; and in the shipped table the
only such entry is Vicryl 2. -/
theorem C10_fall_through_mode :
    (∀ (medicine_name : String) (rule : ProtocolRule),
      dictLookup MEDICINE_PROTOCOL medicine_name = some rule →
      rule.fixed = false →
      rule.per_10kg = false →
      ∀ (weight : ℚ) (gender : Option String),
        (rule.female_only = true → gender = some "Female") →
        calculate_medicine_dosage weight medicine_name gender = rule.base_dose)
    ∧ (MEDICINE_PROTOCOL.all (fun p =>
        p.2.fixed || p.2.per_10kg || (p.1 == "Vicryl 2"))) = true := by
  constructor
  · intro medicine_name rule hlook hfix hper weight gender hgate
    unfold calculate_medicine_dosage
    rw [hlook]
    show ruleDose rule weight gender = rule.base_dose
    unfold ruleDose
    rw [if_neg (by rintro ⟨hf, hg⟩; exact hg (hgate hf))]
    rw [if_neg (by rw [hfix]; simp)]
    rw [if_neg (by rw [hper]; simp)]
  · decide

/-- C10 witness: the fall-through branch applied at Vicryl 2, weight
12, gender Female. -/
theorem C10_fall_through_mode_witness :
    calculate_medicine_dosage 12 "Vicryl 2" (some "Female") = (0.20 : ℚ) :=
  C10_fall_through_mode.1 "Vicryl 2"
    { base_dose := 0.20, unit := "Pcs", female_only := true }
    lookup_vicryl2 rfl rfl 12 (some "Female") (fun _ => rfl)

/-! ## Claim theorems for the case-number allocator and formatter -/

/-- C3: for any period the allocator's sequence is the maximum of the
successfully parsed suffixes of the prefix-matching existing numbers
(0 when there are none) plus 1, so gaps are never reused; in particular
existing JAN numbers 0001 and 0003 lead to 0004, not 0002. -/
theorem C3_monotone_max_plus_one :
    (∀ (org_shortcode project_code : List Char) (month : Nat) (case_type : Char)
        (existing : List (List Char)),
      next_sequence org_shortcode project_code month case_type existing
        = ((parsed_sequences org_shortcode project_code month case_type existing).max?.getD 0)
            + 1)
    ∧ get_next_case_number "JS".toList "TAL".toList 1 'C'
        ["JS-TAL-JAN-C0001".toList, "JS-TAL-JAN-C0003".toList]
        = "JS-TAL-JAN-C0004".toList := by
  constructor
  · intro org_shortcode project_code month case_type existing
    unfold next_sequence
    by_cases hm : matching_cases org_shortcode project_code month case_type existing = []
    · rw [if_pos hm]
      have hp : parsed_sequences org_shortcode project_code month case_type existing = [] := by
        unfold parsed_sequences
        rw [hm]
        rfl
      rw [hp]
      rfl
    · rw [if_neg hm]
      cases hmax : (parsed_sequences org_shortcode project_code month case_type existing).max?
        <;> rfl
  · decide

/-- C4: an existing entry whose trailing suffix does not parse as an
integer is skipped, never fatal: prepending such an entry to any
snapshot leaves the allocation unchanged, and concretely JAN entries
0002 and CXXXX allocate 0003. -/
theorem C4_malformed_entries_skipped :
    (∀ (org_shortcode project_code : List Char) (month : Nat) (case_type : Char)
        (existing : List (List Char)) (bad : List Char),
      extractSeq (lastDashToken bad) = none →
      get_next_case_number org_shortcode project_code month case_type (bad :: existing)
        = get_next_case_number org_shortcode project_code month case_type existing)
    ∧ get_next_case_number "JS".toList "TAL".toList 1 'C'
        ["JS-TAL-JAN-C0002".toList, "JS-TAL-JAN-CXXXX".toList]
        = "JS-TAL-JAN-C0003".toList := by
  constructor
  · intro org_shortcode project_code month case_type existing bad hbad
    unfold get_next_case_number
    congr 1
    unfold next_sequence
    by_cases hb : startsWith (case_pattern org_shortcode project_code month case_type) bad
        = true
    · have hmc : matching_cases org_shortcode project_code month case_type (bad :: existing)
          = bad :: matching_cases org_shortcode project_code month case_type existing := by
        unfold matching_cases
        rw [List.filter_cons_of_pos hb]
      have hps : parsed_sequences org_shortcode project_code month case_type (bad :: existing)
          = parsed_sequences org_shortcode project_code month case_type existing := by
        unfold parsed_sequences
        rw [hmc]
        simp only [List.filterMap_cons, hbad]
      rw [hps, hmc]
      rw [if_neg (by simp)]
      by_cases hme : matching_cases org_shortcode project_code month case_type existing = []
      · rw [if_pos hme]
        have hp : parsed_sequences org_shortcode project_code month case_type existing
            = [] := by
          unfold parsed_sequences
          rw [hme]
          rfl
        rw [hp]
        rfl
      · rw [if_neg hme]
    · have hmc : matching_cases org_shortcode project_code month case_type (bad :: existing)
          = matching_cases org_shortcode project_code month case_type existing := by
        unfold matching_cases
        rw [List.filter_cons_of_neg (by simp [hb])]
      unfold parsed_sequences
      rw [hmc]
  · decide

/-- C4 witness: prepending the unparsable JAN entry CXXXX leaves the
allocation for January unchanged. -/
theorem C4_malformed_entries_skipped_witness :
    get_next_case_number "JS".toList "TAL".toList 1 'C'
      ("JS-TAL-JAN-CXXXX".toList :: ["JS-TAL-JAN-C0002".toList])
      = get_next_case_number "JS".toList "TAL".toList 1 'C' ["JS-TAL-JAN-C0002".toList] :=
  C4_malformed_entries_skipped.1 "JS".toList "TAL".toList 1 'C'
    ["JS-TAL-JAN-C0002".toList] "JS-TAL-JAN-CXXXX".toList (by decide)

/-- C5: formatting a case number and then parsing the trailing suffix
(the token after the last dash, the leading record-type letter
stripped, read as an integer) recovers every sequence s at or above 1;
at or above 10000 the padded field widens to at least 5 digits instead
of truncating or wrapping, and still parses back to s. -/
theorem C5_case_number_round_trip :
    ∀ s : Nat,
      (1 ≤ s →
        extractSeq (lastDashToken (generate_case_number "JS".toList "TAL".toList 1 s 'C'))
          = some s)
      ∧ (10000 ≤ s →
          5 ≤ (pad4 (natToDigits s)).length ∧
          extractSeq (lastDashToken (generate_case_number "JS".toList "TAL".toList 1 s 'C'))
            = some s) := by
  intro s
  refine ⟨fun _ => extractSeq_generate _ _ _ _, fun hs => ⟨?_, extractSeq_generate _ _ _ _⟩⟩
  have hlt : s < 10 ^ (natToDigits s).length :=
    natToDigitsAux_lt_pow_length (s + 1) s (Nat.lt_succ_self s)
  have hlen : 5 ≤ (natToDigits s).length := by
    by_contra hcon
    push_neg at hcon
    have hle : 10 ^ (natToDigits s).length ≤ 10 ^ 4 :=
      Nat.pow_le_pow_right (by norm_num) (by omega)
    norm_num at hle
    omega
  unfold pad4
  rw [List.length_append, List.length_replicate]
  omega

/-- C5 witness: the round trip and the widened field at sequence
10000, with the sequence-1 round trip alongside. -/
theorem C5_case_number_round_trip_witness :
    extractSeq (lastDashToken (generate_case_number "JS".toList "TAL".toList 1 1 'C'))
      = some 1
    ∧ 5 ≤ (pad4 (natToDigits 10000)).length
    ∧ extractSeq (lastDashToken (generate_case_number "JS".toList "TAL".toList 1 10000 'C'))
        = some 10000 :=
  ⟨(C5_case_number_round_trip 1).1 (by norm_num),
   ((C5_case_number_round_trip 10000).2 (by norm_num)).1,
   ((C5_case_number_round_trip 10000).2 (by norm_num)).2⟩

/-- C6: when no entry of the snapshot starts with the prefix
JS-TAL-JAN-C the allocator yields JS-TAL-JAN-C0001; in particular for
the empty snapshot and for a snapshot holding only the February number
JS-TAL-FEB-C0005, which never affects January. -/
theorem C6_empty_history_month_isolation :
    (∀ existing : List (List Char),
      (∀ e ∈ existing, startsWith "JS-TAL-JAN-C".toList e = false) →
      get_next_case_number "JS".toList "TAL".toList 1 'C' existing
        = "JS-TAL-JAN-C0001".toList)
    ∧ get_next_case_number "JS".toList "TAL".toList 1 'C' [] = "JS-TAL-JAN-C0001".toList
    ∧ get_next_case_number "JS".toList "TAL".toList 1 'C' ["JS-TAL-FEB-C0005".toList]
        = "JS-TAL-JAN-C0001".toList := by
  refine ⟨?_, by decide, by decide⟩
  intro existing hall
  have hpat : case_pattern "JS".toList "TAL".toList 1 'C' = "JS-TAL-JAN-C".toList := by decide
  have hm : matching_cases "JS".toList "TAL".toList 1 'C' existing = [] := by
    unfold matching_cases
    rw [hpat]
    rw [List.filter_eq_nil_iff]
    intro e he
    rw [hall e he]
    exact Bool.false_ne_true
  unfold get_next_case_number next_sequence
  rw [if_pos hm]
  decide

/-- C6 witness: the general branch applied to the snapshot holding
only the February number. -/
theorem C6_empty_history_month_isolation_witness :
    get_next_case_number "JS".toList "TAL".toList 1 'C' ["JS-TAL-FEB-C0005".toList]
      = "JS-TAL-JAN-C0001".toList :=
  C6_empty_history_month_isolation.1 ["JS-TAL-FEB-C0005".toList] (by decide)
